import Mathlib

/-!
Verification of the client-side real-time connection manager of the AIST
repository (`App/modules/lib/client/websocketClient.js`, class `WebSocketClient`).

The JavaScript class is shallowly embedded as a pure state machine:

* `ClientState` holds the instance fields set up in the constructor
  (`this.ws`, `this.connected`, `this.reconnectAttempts`, `this.reconnectTimer`,
  `this.heartbeatTimer`, `this.subscriptions`, `this.messageQueue`) together with
  the resolved configuration.  Timers are modelled as booleans recording whether
  the timer handle is non-null; the browser `WebSocket` handle is modelled by
  its `readyState` (or `none` when `this.ws` is null).
* Each method of the class becomes a function `ClientState → ClientState × List Out`,
  where `Out` records the externally observable effects: `_emit` dispatches,
  transport writes (`ws.send`), transport close calls and socket construction.
* Asynchronous callbacks (socket open/close/error/message, the reconnect timeout,
  the heartbeat interval) are delivered by an `Action`-labelled `step` function;
  a run is a fold of `step` over a list of actions.
* JSON values are an inductive `Json`; `JSON.parse` (a host primitive) is
  modelled by handing `_handleMessage` an `Option Json` (none = parse throw),
  and `JSON.stringify` by `jsonStringify`, which reproduces the host's output
  for the value shapes the client serializes (object-key insertion order is
  preserved; number rendering is modelled for integer values, the only numbers
  appearing in frames serialized in this development).
* Exception behaviour (listener callbacks throwing, `new WebSocket` throwing)
  is modelled separately with `Except`-returning translations of `_emit`,
  `connect` and `_send`, where `Except.error` stands for an uncaught JS
  exception escaping to the caller.

Configuration resolution in the constructor (environment fallbacks, `|| default`
and object spread) is not modelled: the claims quantify over an already
resolved configuration, taken here as an arbitrary `Config`.  The `debug` flag
only gates `console.log` tracing and is omitted.
-/

namespace AIST

/-- JSON values as produced by the host `JSON.parse` and consumed by
`JSON.stringify`.  Objects keep their fields in insertion order. -/
inductive Json where
  | null : Json
  | bool (b : Bool) : Json
  | num (q : ℚ) : Json
  | str (s : String) : Json
  | arr (elems : List Json) : Json
  | obj (fields : List (String × Json)) : Json
deriving Repr

/-- JavaScript truthiness of a JSON value (`if (v)`): `null`, `false`, `0` and
the empty string are falsy; every object and array is truthy. -/
def truthy : Json → Bool
  | .null => false
  | .bool b => b
  | .num q => decide (q ≠ 0)
  | .str s => decide (s ≠ "")
  | .arr _ => true
  | .obj _ => true

/-- Property access `v[key]` on a parsed JSON value: `some` field value when
`v` is an object carrying the key, otherwise `none` (JavaScript `undefined`). -/
def getField : Json → String → Option Json
  | .obj fields, key => fields.lookup key
  | _, _ => none

/-- Escaping of one character inside a JSON string literal, as done by
`JSON.stringify` (the frames in this development contain no control
characters, so only the quote and the backslash need escaping). -/
def escapeJsonChar (c : Char) : String :=
  if c = '"' then "\\\"" else if c = '\\' then "\\\\" else String.singleton c

/-- Escaping of a whole string for inclusion in `JSON.stringify` output. -/
def escapeJsonString (s : String) : String :=
  String.join (s.data.map escapeJsonChar)

/-- Rendering of a JSON number by `JSON.stringify`, modelled for integer
values (the client's own serialized frames only ever carry integers: update
intervals and close codes).  Non-integer rendering is out of the model and
yields a marker string that no theorem relies on. -/
def jsNumToString (q : ℚ) : String :=
  if q.den = 1 then toString q.num else "nonIntegerNumberUnmodeled"

mutual

/-- Model of the host `JSON.stringify` on `Json` values: object fields are
emitted in insertion order, exactly as V8 does for string-keyed properties
created by an object literal. -/
def jsonStringify : Json → String
  | .null => "null"
  | .bool b => cond b "true" "false"
  | .num q => jsNumToString q
  | .str s => "\"" ++ escapeJsonString s ++ "\""
  | .arr elems => "[" ++ String.intercalate "," (stringifyElems elems) ++ "]"
  | .obj fields => "\x7b" ++ String.intercalate "," (stringifyFields fields) ++ "\x7d"

/-- Serialization of the elements of a JSON array, in order. -/
def stringifyElems : List Json → List String
  | [] => []
  | j :: rest => jsonStringify j :: stringifyElems rest

/-- Serialization of the fields of a JSON object, in insertion order. -/
def stringifyFields : List (String × Json) → List String
  | [] => []
  | (k, v) :: rest =>
      ("\"" ++ escapeJsonString k ++ "\":" ++ jsonStringify v) :: stringifyFields rest

end

/-- The `readyState` values of a browser `WebSocket`. -/
inductive ReadyState where
  | CONNECTING : ReadyState
  | OPEN : ReadyState
  | CLOSING : ReadyState
  | CLOSED : ReadyState
deriving Repr, DecidableEq

/-- Resolved configuration of a `WebSocketClient`, after the constructor has
applied its defaults (`reconnectDelay` 5000, `maxReconnectAttempts` 5,
`heartbeatInterval` 30000).  The `debug` flag only gates `console.log`
tracing and is omitted. -/
structure Config where
  url : String
  reconnectDelay : Nat
  maxReconnectAttempts : Nat
  heartbeatInterval : Nat
deriving Repr

/-- The mutable instance fields of a `WebSocketClient`.

`ws` is the `readyState` of `this.ws` (`none` when `this.ws` is null);
`reconnectTimer` and `heartbeatTimer` record whether the corresponding timer
handle is non-null; `subscriptions` is the `this.subscriptions` map as an
association list (its values, documented in the source as sets of callbacks,
are irrelevant here: no method of the class ever inserts into the map);
`messageQueue` is `this.messageQueue`, a list of already serialized frames. -/
structure ClientState where
  config : Config
  ws : Option ReadyState
  connected : Bool
  reconnectAttempts : Nat
  reconnectTimer : Bool
  heartbeatTimer : Bool
  subscriptions : List (String × Json)
  messageQueue : List String
deriving Repr

/-- State of a freshly constructed `WebSocketClient` (constructor body). -/
def initState (cfg : Config) : ClientState :=
  ⟨cfg, none, false, 0, false, false, [], []⟩

/-- Externally observable effects of one method invocation. -/
inductive Out where
  | emit (event : Json) (data : Json) : Out
  | wsSend (frame : String) : Out
  | wsCloseCall (code : Nat) (reason : String) : Out
  | wsNew (url : String) : Out
deriving Repr

/-- The message object built by `subscribe(topic, filter, interval)`:
`\x7btype: 'subscribe', topic, filter, interval\x7d` with fields in that
insertion order. -/
def subscribeMessage (topic : String) (filter : Option String) (interval : ℚ) : Json :=
  .obj [("type", .str "subscribe"), ("topic", .str topic),
        ("filter", filter.elim Json.null Json.str), ("interval", .num interval)]

/-- The message object built by `unsubscribe(topic, filter)`. -/
def unsubscribeMessage (topic : String) (filter : Option String) : Json :=
  .obj [("type", .str "unsubscribe"), ("topic", .str topic),
        ("filter", filter.elim Json.null Json.str)]

/-- The message object built by `send(data)`: `\x7btype: 'data', data\x7d`. -/
def dataMessage (data : Json) : Json :=
  .obj [("type", .str "data"), ("data", data)]

/-- The heartbeat frame `\x7btype: 'ping'\x7d` sent by `_startHeartbeat`. -/
def pingMessage : Json :=
  .obj [("type", .str "ping")]

/-- Translation of `_send(message)`: serialize, then write to the transport
when `this.ws` exists and is `OPEN`, otherwise append to `this.messageQueue`. -/
def _send (message : Json) (s : ClientState) : ClientState × List Out :=
  let jsonMessage := jsonStringify message
  if s.ws = some ReadyState.OPEN then
    (s, [Out.wsSend jsonMessage])
  else
    ({ s with messageQueue := s.messageQueue ++ [jsonMessage] }, [])

/-- Translation of `subscribe(topic, filter, interval)`: build the subscribe
message and route it through `_send` (the `this.subscriptions` map is not
touched by the source method). -/
def subscribe (topic : String) (filter : Option String) (interval : ℚ)
    (s : ClientState) : ClientState × List Out :=
  _send (subscribeMessage topic filter interval) s

/-- Translation of `unsubscribe(topic, filter)`. -/
def unsubscribe (topic : String) (filter : Option String)
    (s : ClientState) : ClientState × List Out :=
  _send (unsubscribeMessage topic filter) s

/-- Translation of `send(data)`. -/
def send (data : Json) (s : ClientState) : ClientState × List Out :=
  _send (dataMessage data) s

/-- Translation of `_scheduleReconnect()`: no-op when a timer is already
pending; emit `reconnect_failed` (and schedule nothing) when the attempt
counter has reached the ceiling; otherwise increment the counter, emit
`reconnecting` with the attempt number and delay, and start the timer. -/
def _scheduleReconnect (s : ClientState) : ClientState × List Out :=
  if s.reconnectTimer then (s, [])
  else if s.config.maxReconnectAttempts ≤ s.reconnectAttempts then
    (s, [Out.emit (.str "reconnect_failed") .null])
  else
    ({ s with reconnectAttempts := s.reconnectAttempts + 1, reconnectTimer := true },
     [Out.emit (.str "reconnecting")
        (.obj [("attempt", .num ((s.reconnectAttempts + 1 : Nat) : ℚ)),
               ("delay", .num (s.config.reconnectDelay : ℚ))])])

/-- Translation of `disconnect()`: set the attempt counter to the maximum,
clear both timers, close the transport (code 1000) and null it when present,
clear the connected flag and emit `disconnected`. -/
def disconnect (s : ClientState) : ClientState × List Out :=
  ({ s with reconnectAttempts := s.config.maxReconnectAttempts,
            reconnectTimer := false, heartbeatTimer := false,
            ws := none, connected := false },
   (if s.ws.isSome then [Out.wsCloseCall 1000 "Client disconnect"] else []) ++
     [Out.emit (.str "disconnected") .null])

/-- Translation of `connect()`.  The early return fires when `this.ws` exists
and is `CONNECTING` or `OPEN`.  `ctorFails` is true when `new WebSocket(url)`
throws synchronously; the `catch` block then emits `error` (the thrown error
object itself is not modelled and appears as `null`) and calls
`_scheduleReconnect`.  On success the new socket starts in `CONNECTING`. -/
def connect (ctorFails : Bool) (s : ClientState) : ClientState × List Out :=
  if s.ws = some ReadyState.CONNECTING ∨ s.ws = some ReadyState.OPEN then (s, [])
  else if ctorFails then
    ((_scheduleReconnect s).1, Out.emit (.str "error") .null :: (_scheduleReconnect s).2)
  else
    ({ s with ws := some ReadyState.CONNECTING }, [Out.wsNew s.config.url])

/-- Translation of `_handleOpen()`, run when the socket (now `OPEN`) fires its
open event: set the connected flag, reset the attempt counter, drain the
message queue to the transport in FIFO order, start the heartbeat
(`_startHeartbeat` clears any prior interval and starts a new one, so the
timer flag is simply set), and emit `connected`. -/
def _handleOpen (s : ClientState) : ClientState × List Out :=
  let drained := s.messageQueue.map Out.wsSend
  ({ s with connected := true, reconnectAttempts := 0,
            messageQueue := [], heartbeatTimer := true },
   drained ++ [Out.emit (.str "connected") .null])

/-- Translation of `_handleClose(event)`: clear the connected flag, null the
socket, clear the heartbeat, emit `disconnected` with the close metadata, and
call `_scheduleReconnect` only when the close code is not 1000 and the attempt
counter is still below the ceiling. -/
def _handleClose (code : Nat) (reason : String) (s : ClientState) : ClientState × List Out :=
  let s1 : ClientState := { s with connected := false, ws := none, heartbeatTimer := false }
  let closeEmit := Out.emit (.str "disconnected")
      (.obj [("code", .num code), ("reason", .str reason)])
  if code ≠ 1000 ∧ s1.reconnectAttempts < s1.config.maxReconnectAttempts then
    ((_scheduleReconnect s1).1, closeEmit :: (_scheduleReconnect s1).2)
  else
    (s1, [closeEmit])

/-- JavaScript `message.data || message` as evaluated in `_handleMessage`:
the `data` field when it is present and truthy, otherwise the whole payload. -/
def dataOrWhole (message : Json) : Json :=
  match getField message "data" with
  | some d => if truthy d then d else message
  | none => message

/-- Translation of `_handleMessage(event)`.  The argument is the result of
`JSON.parse(event.data)`: `none` when the parse threw (the catch block only
logs, so nothing is dispatched and nothing escapes).  On a parsed payload the
specific event named by `message.type` is emitted when that field is truthy,
carrying `message.data || message`; then the generic `message` event is
emitted with the full payload.  The state is unchanged. -/
def _handleMessage (parseResult : Option Json) (s : ClientState) : ClientState × List Out :=
  match parseResult with
  | none => (s, [])
  | some message =>
    let specific : List Out :=
      match getField message "type" with
      | some t => if truthy t then [Out.emit t (dataOrWhole message)] else []
      | none => []
    (s, specific ++ [Out.emit (.str "message") message])

/-- Body of the heartbeat interval callback installed by `_startHeartbeat`:
send a ping frame through `_send` when the socket exists and is `OPEN`. -/
def heartbeatBody (s : ClientState) : ClientState × List Out :=
  if s.ws = some ReadyState.OPEN then _send pingMessage s else (s, [])

/-- Translation of `cleanup()`: `disconnect()`, then clear the listener map
(not part of the state), the subscriptions map and the message queue. -/
def cleanup (s : ClientState) : ClientState × List Out :=
  ({ (disconnect s).1 with subscriptions := [], messageQueue := [] }, (disconnect s).2)

/-- Snapshot returned by `getStatus()`: exactly the three properties of the
object literal in the source (`connected`, `reconnectAttempts`, `url` — the
configured endpoint address, called `address` in the specification). -/
structure Status where
  connected : Bool
  reconnectAttempts : Nat
  url : String
deriving Repr, DecidableEq

/-- Translation of `getStatus()`. -/
def getStatus (s : ClientState) : Status :=
  ⟨s.connected, s.reconnectAttempts, s.config.url⟩

/-- Translation of `isConnected()`: returns `this.connected`. -/
def isConnected (s : ClientState) : Bool :=
  s.connected

/-- One event-loop turn delivered to the manager: either a caller invoking a
public method, or an asynchronous callback (socket lifecycle event, reconnect
timeout firing, heartbeat interval tick).  `connectOk` / `connectFail`
distinguish whether `new WebSocket` succeeds or throws; `timerFire` carries
the same distinction for the `connect()` call made by the reconnect timeout.
`wsMessage` carries the result of `JSON.parse` on the received frame. -/
inductive Action where
  | connectOk : Action
  | connectFail : Action
  | disconnect : Action
  | subscribe (topic : String) (filter : Option String) (interval : ℚ) : Action
  | unsubscribe (topic : String) (filter : Option String) : Action
  | send (data : Json) : Action
  | wsOpen : Action
  | wsClose (code : Nat) (reason : String) : Action
  | wsMessage (parseResult : Option Json) : Action
  | wsError : Action
  | timerFire (ctorFails : Bool) : Action
  | heartbeatTick : Action

/-- Single-threaded event-loop semantics.  Asynchronous callbacks are guarded
by the conditions under which the host delivers them: a socket fires `open`
only while `CONNECTING` (its `readyState` then becomes `OPEN` before
`_handleOpen` runs), messages arrive only on an open socket, the reconnect
timeout and the heartbeat interval fire only while their handles are set (the
timeout callback nulls `this.reconnectTimer` and then calls `connect()`).
`close` events are delivered unconditionally: a socket already detached from
`this.ws` (for example after `disconnect()`) can still fire its close handler. -/
def step (s : ClientState) : Action → ClientState × List Out
  | .connectOk => connect false s
  | .connectFail => connect true s
  | .disconnect => disconnect s
  | .subscribe topic filter interval => subscribe topic filter interval s
  | .unsubscribe topic filter => unsubscribe topic filter s
  | .send data => send data s
  | .wsOpen =>
      if s.ws = some ReadyState.CONNECTING then
        _handleOpen { s with ws := some ReadyState.OPEN }
      else (s, [])
  | .wsClose code reason => _handleClose code reason s
  | .wsMessage parseResult =>
      if s.ws = some ReadyState.OPEN then _handleMessage parseResult s else (s, [])
  | .wsError => (s, [Out.emit (.str "error") .null])
  | .timerFire ctorFails =>
      if s.reconnectTimer then connect ctorFails { s with reconnectTimer := false }
      else (s, [])
  | .heartbeatTick =>
      if s.heartbeatTimer then heartbeatBody s else (s, [])

/-- A run: fold `step` over a list of actions, concatenating the effects. -/
def run (s : ClientState) : List Action → ClientState × List Out
  | [] => (s, [])
  | a :: rest =>
    let (s', outs) := step s a
    let (s'', outs') := run s' rest
    (s'', outs ++ outs')

/-- Final state of a run. -/
def runState (s : ClientState) (acts : List Action) : ClientState :=
  (run s acts).1

/-- Concatenated effects of a run. -/
def runOuts (s : ClientState) (acts : List Action) : List Out :=
  (run s acts).2

/-- A manager state reachable from a freshly constructed client by some
sequence of event-loop turns. -/
def Reachable (s : ClientState) : Prop :=
  ∃ cfg acts, runState (initState cfg) acts = s

/-! Exception behaviour.  JavaScript exceptions are modelled with `Except`:
`Except.error` is an uncaught exception escaping to the caller.  A listener
callback is abstracted by whether its body throws when invoked. -/

/-- Behaviour of one registered listener callback when invoked. -/
inductive CbBehavior where
  | ok : CbBehavior
  | throws : CbBehavior
deriving Repr, DecidableEq

/-- Invocation of one listener callback: `throws` raises a JS exception. -/
def invokeCallback : CbBehavior → Except String Unit
  | .ok => Except.ok ()
  | .throws => Except.error "listener exception"

/-- Translation of the dispatch loop of `_emit(event, data)`: `forEach` over
the registered callbacks, each invocation wrapped in `try/catch` (the catch
block only logs).  Returns the number of callbacks actually invoked; an
`Except.error` result would mean an exception escaped the loop. -/
def _emit (callbacks : List CbBehavior) : Except String Nat :=
  callbacks.foldl
    (fun acc cb =>
      match acc with
      | .error e => .error e
      | .ok n =>
        match invokeCallback cb with
        | .ok _ => .ok (n + 1)
        | .error _ => .ok (n + 1))
    (.ok 0)

/-- The host `new WebSocket(url)` primitive: throws synchronously on failure
(for example a malformed URL), otherwise yields a socket in `CONNECTING`. -/
def wsConstruct (ctorFails : Bool) (url : String) : Except String (ReadyState × List Out) :=
  if ctorFails then .error "WebSocket construction error"
  else .ok (ReadyState.CONNECTING, [Out.wsNew url])

/-- Translation of `connect()` with its exception structure explicit: the
socket construction sits inside `try`, and the `catch` block runs
`_emit('error', error)` (dispatching to the registered error listeners,
`errCbs`) followed by `_scheduleReconnect()` (whose own emission dispatches to
`schedCbs`).  An `Except.error` result would be an exception escaping
`connect()` to its caller. -/
def connectExc (ctorFails : Bool) (errCbs schedCbs : List CbBehavior)
    (s : ClientState) : Except String (ClientState × List Out) :=
  if s.ws = some ReadyState.CONNECTING ∨ s.ws = some ReadyState.OPEN then .ok (s, [])
  else
    match wsConstruct ctorFails s.config.url with
    | .ok (rs, outs) => .ok ({ s with ws := some rs }, outs)
    | .error _ =>
      match _emit errCbs with
      | .error e => .error e
      | .ok _ =>
        match _emit schedCbs with
        | .error e => .error e
        | .ok _ =>
          .ok ((_scheduleReconnect s).1,
               Out.emit (.str "error") .null :: (_scheduleReconnect s).2)

/-- The host `ws.send(frame)` primitive: throws `InvalidStateError` unless the
socket is `OPEN` (per the WebSocket API, `send` on an open socket does not
throw; buffering failures are reported asynchronously). -/
def wsSendPrim (ws : Option ReadyState) (frame : String) : Except String (List Out) :=
  match ws with
  | some ReadyState.OPEN => .ok [Out.wsSend frame]
  | _ => .error "InvalidStateError"

/-- Translation of `_send(message)` with its exception structure explicit:
the transport write — the only potentially throwing operation in the body —
is reached only behind the `readyState === OPEN` guard.  `send(data)` and
`subscribe(...)` are `_sendExc` applied to their message builders. -/
def _sendExc (message : Json) (s : ClientState) : Except String (ClientState × List Out) :=
  let jsonMessage := jsonStringify message
  if s.ws = some ReadyState.OPEN then
    match wsSendPrim s.ws jsonMessage with
    | .ok outs => .ok (s, outs)
    | .error e => .error e
  else
    .ok ({ s with messageQueue := s.messageQueue ++ [jsonMessage] }, [])

/-! Observational predicates over effects, used to state the claims. -/

/-- Caller-initiated `connect()` invocations (the actions an intentional
shutdown scenario excludes). -/
def isCallerConnect : Action → Bool
  | .connectOk => true
  | .connectFail => true
  | _ => false

/-- Tests whether an effect is an `_emit('reconnecting', ...)` dispatch. -/
def isReconnectingEmit : Out → Bool
  | .emit (.str ev) _ => ev == "reconnecting"
  | _ => false

/-- Tests whether an effect is an `_emit('reconnect_failed')` dispatch. -/
def isReconnectFailedEmit : Out → Bool
  | .emit (.str ev) _ => ev == "reconnect_failed"
  | _ => false

/-- Tests whether an effect is the construction of a new transport socket
(the observable mark of entering the `connecting` state). -/
def isWsNew : Out → Bool
  | .wsNew _ => true
  | _ => false

/-- Frame written to the transport by an effect, if any. -/
def wsSendFrame : Out → Option String
  | .wsSend frame => some frame
  | _ => none

/-- Attempt number carried by a `reconnecting` emission, if any. -/
def reconnectingAttempt : Out → Option ℚ
  | .emit (.str ev) d =>
      if ev == "reconnecting" then
        match getField d "attempt" with
        | some (.num q) => some q
        | _ => none
      else none
  | _ => none

/-- Structural invariant of the manager: the heartbeat timer handle exists
exactly while the connected flag is set, the connected flag is set exactly
while the current transport is open, and the subscriptions map is empty (no
method of the class ever inserts into it). -/
def Inv (s : ClientState) : Prop :=
  s.heartbeatTimer = s.connected ∧
  (s.connected = true ↔ s.ws = some ReadyState.OPEN) ∧
  s.subscriptions = []

/-- Quiescent shutdown state: no reconnect timer pending, no current socket,
attempt counter at the configured ceiling — exactly the state `disconnect()`
leaves behind. -/
def Quiescent (s : ClientState) : Prop :=
  s.reconnectTimer = false ∧ s.ws = none ∧
  s.reconnectAttempts = s.config.maxReconnectAttempts

/-- A caller invocation that routes a protocol message through `_send`. -/
inductive Call where
  | subscribe (topic : String) (filter : Option String) (interval : ℚ) : Call
  | unsubscribe (topic : String) (filter : Option String) : Call
  | send (data : Json) : Call

/-- The protocol message object the call builds. -/
def Call.message : Call → Json
  | .subscribe topic filter interval => subscribeMessage topic filter interval
  | .unsubscribe topic filter => unsubscribeMessage topic filter
  | .send data => dataMessage data

/-- The event-loop action performing the call. -/
def Call.toAction : Call → Action
  | .subscribe topic filter interval => Action.subscribe topic filter interval
  | .unsubscribe topic filter => Action.unsubscribe topic filter
  | .send data => Action.send data

/-- One unintentional-closure-then-timer cycle: the socket closes abnormally
(code 1006), a reconnect is scheduled, the timer fires and a fresh socket is
constructed. -/
def closeFireCycle : List Action :=
  [Action.wsClose 1006 "abnormal closure", Action.timerFire false]

/-- The given number of consecutive unintentional-closure cycles. -/
def cyclesList : Nat → List Action
  | 0 => []
  | j + 1 => closeFireCycle ++ cyclesList j

/-! Concrete instances used in the claim scenarios. -/

/-- Configuration of the reconnection scenario in the specification:
`maxReconnectAttempts` 2, `reconnectDelay` 100. -/
def cfgA : Config :=
  ⟨"ws://localhost:8080", 100, 2, 30000⟩

/-- Configuration with the documented defaults. -/
def cfgB : Config :=
  ⟨"ws://localhost:8080", 5000, 5, 30000⟩

/-- Connect, then two consecutive unintentional closes (code 1006) with no
successful open in between: the scenario of the specification with
`maxReconnectAttempts` 2 (each close is followed by the pending reconnect
timer firing). -/
def twoClosesTrace : List Action :=
  [Action.connectOk, Action.wsClose 1006 "abnormal closure", Action.timerFire false,
   Action.wsClose 1006 "abnormal closure"]

/-- The same scenario continued until retries are exhausted: the second
reconnect timer fires and that connection also closes unintentionally. -/
def exhaustedTrace : List Action :=
  twoClosesTrace ++ [Action.timerFire false, Action.wsClose 1006 "abnormal closure"]

/-- Inbound frame whose `data` field is present but falsy:
`\x7b"type":"t","data":false\x7d`. -/
def falsyDataFrame : Json :=
  .obj [("type", .str "t"), ("data", .bool false)]

/-- The inbound frame of the specification scenario:
`\x7b"type":"sensor_data_update","data":\x7b"temp":28.5\x7d\x7d`. -/
def sensorFrame : Json :=
  .obj [("type", .str "sensor_data_update"),
        ("data", .obj [("temp", .num ((57 : ℚ) / 2))])]

/-! Basic lemmas about runs and the fields each operation leaves untouched. -/

/-- A run over the empty action list is a no-op. -/
theorem run_nil (s : ClientState) : run s [] = (s, []) := rfl

/-- Unfolding a run one action at a time. -/
theorem run_cons (s : ClientState) (a : Action) (acts : List Action) :
    run s (a :: acts) = ((run (step s a).1 acts).1, (step s a).2 ++ (run (step s a).1 acts).2) := by
  simp only [run]

/-- Final state of a run, one action at a time. -/
theorem runState_cons (s : ClientState) (a : Action) (acts : List Action) :
    runState s (a :: acts) = runState (step s a).1 acts := by
  simp only [runState, run_cons]

/-- Effects of a run, one action at a time. -/
theorem runOuts_cons (s : ClientState) (a : Action) (acts : List Action) :
    runOuts s (a :: acts) = (step s a).2 ++ runOuts (step s a).1 acts := by
  simp only [runOuts, run_cons]

/-- Fields `_scheduleReconnect` leaves untouched. -/
theorem sched_frame (s : ClientState) :
    (_scheduleReconnect s).1.config = s.config ∧
    (_scheduleReconnect s).1.ws = s.ws ∧
    (_scheduleReconnect s).1.connected = s.connected ∧
    (_scheduleReconnect s).1.heartbeatTimer = s.heartbeatTimer ∧
    (_scheduleReconnect s).1.subscriptions = s.subscriptions ∧
    (_scheduleReconnect s).1.messageQueue = s.messageQueue := by
  unfold _scheduleReconnect
  split_ifs <;> simp

/-- Fields `_send` leaves untouched. -/
theorem send_frame (m : Json) (s : ClientState) :
    (_send m s).1.config = s.config ∧
    (_send m s).1.ws = s.ws ∧
    (_send m s).1.connected = s.connected ∧
    (_send m s).1.reconnectAttempts = s.reconnectAttempts ∧
    (_send m s).1.reconnectTimer = s.reconnectTimer ∧
    (_send m s).1.heartbeatTimer = s.heartbeatTimer ∧
    (_send m s).1.subscriptions = s.subscriptions := by
  unfold _send
  split_ifs <;> simp

/-- The message handler never changes the state. -/
theorem handleMessage_fst (p : Option Json) (s : ClientState) :
    (_handleMessage p s).1 = s := by
  cases p <;> rfl

/-- Every event-loop turn preserves the configuration. -/
theorem step_config (s : ClientState) (a : Action) :
    (step s a).1.config = s.config := by
  cases a with
  | connectOk =>
      simp only [step, connect]
      split_ifs <;> simp [(sched_frame s).1]
  | connectFail =>
      simp only [step, connect]
      split_ifs <;> simp [(sched_frame s).1]
  | disconnect => simp [step, disconnect]
  | subscribe topic filter interval => simp [step, subscribe, (send_frame _ s).1]
  | unsubscribe topic filter => simp [step, unsubscribe, (send_frame _ s).1]
  | send data => simp [step, send, (send_frame _ s).1]
  | wsOpen =>
      simp only [step]
      split_ifs <;> simp [_handleOpen]
  | wsClose code reason =>
      simp only [step, _handleClose]
      split_ifs <;> simp [(sched_frame _).1]
  | wsMessage p =>
      simp only [step]
      split_ifs <;> simp [handleMessage_fst]
  | wsError => simp [step]
  | timerFire ctorFails =>
      simp only [step, connect]
      split_ifs <;> simp [(sched_frame _).1]
  | heartbeatTick =>
      simp only [step, heartbeatBody]
      split_ifs <;> simp [(send_frame _ _).1]

/-- The configuration is constant along any run. -/
theorem runState_config (s : ClientState) (acts : List Action) :
    (runState s acts).config = s.config := by
  induction acts generalizing s with
  | nil => rfl
  | cons a acts ih => rw [runState_cons, ih, step_config]

/-- A freshly constructed client satisfies the invariant. -/
theorem inv_initState (cfg : Config) : Inv (initState cfg) := by
  refine ⟨rfl, ?_, rfl⟩
  simp [initState]

/-- `connect()` preserves the invariant (for any outcome of the socket
constructor). -/
theorem inv_connect (f : Bool) (s : ClientState) (h : Inv s) : Inv (connect f s).1 := by
  obtain ⟨h1, h2, h3⟩ := h
  unfold connect
  split_ifs with hws hf
  · exact ⟨h1, h2, h3⟩
  · obtain ⟨_, c2, c3, c4, c5, _⟩ := sched_frame s
    exact ⟨by rw [c4, c3, h1], by rw [c3, c2]; exact h2, by rw [c5]; exact h3⟩
  · refine ⟨h1, ?_, h3⟩
    constructor
    · intro hc
      exact absurd (h2.mp hc) (fun hh => hws (Or.inr hh))
    · intro hh
      simp at hh

/-- Every event-loop turn preserves the invariant. -/
theorem inv_step (s : ClientState) (a : Action) (h : Inv s) : Inv (step s a).1 := by
  obtain ⟨h1, h2, h3⟩ := h
  cases a with
  | connectOk => exact inv_connect false s ⟨h1, h2, h3⟩
  | connectFail => exact inv_connect true s ⟨h1, h2, h3⟩
  | disconnect =>
      refine ⟨rfl, ?_, h3⟩
      simp [step, disconnect]
  | subscribe topic filter interval =>
      obtain ⟨_, c2, c3, _, _, c6, c7⟩ := send_frame (subscribeMessage topic filter interval) s
      simp only [step, AIST.subscribe]
      exact ⟨by rw [c6, c3, h1], by rw [c3, c2]; exact h2, by rw [c7]; exact h3⟩
  | unsubscribe topic filter =>
      obtain ⟨_, c2, c3, _, _, c6, c7⟩ := send_frame (unsubscribeMessage topic filter) s
      simp only [step, AIST.unsubscribe]
      exact ⟨by rw [c6, c3, h1], by rw [c3, c2]; exact h2, by rw [c7]; exact h3⟩
  | send data =>
      obtain ⟨_, c2, c3, _, _, c6, c7⟩ := send_frame (dataMessage data) s
      simp only [step, AIST.send]
      exact ⟨by rw [c6, c3, h1], by rw [c3, c2]; exact h2, by rw [c7]; exact h3⟩
  | wsOpen =>
      simp only [step]
      split_ifs with hws
      · exact ⟨rfl, by simp [_handleOpen], by simpa [_handleOpen] using h3⟩
      · exact ⟨h1, h2, h3⟩
  | wsClose code reason =>
      simp only [step, _handleClose]
      split_ifs with hcond
      · obtain ⟨_, c2, c3, c4, c5, _⟩ := sched_frame
          { s with connected := false, ws := none, heartbeatTimer := false }
        exact ⟨by rw [c4, c3], by rw [c3, c2]; simp, by rw [c5]; exact h3⟩
      · exact ⟨rfl, by simp, h3⟩
  | wsMessage p =>
      simp only [step]
      split_ifs
      · rw [handleMessage_fst]
        exact ⟨h1, h2, h3⟩
      · exact ⟨h1, h2, h3⟩
  | wsError => exact ⟨h1, h2, h3⟩
  | timerFire ctorFails =>
      simp only [step]
      split_ifs
      · exact inv_connect ctorFails _ ⟨h1, h2, h3⟩
      · exact ⟨h1, h2, h3⟩
  | heartbeatTick =>
      simp only [step, heartbeatBody]
      split_ifs
      · obtain ⟨_, c2, c3, _, _, c6, c7⟩ := send_frame pingMessage s
        exact ⟨by rw [c6, c3, h1], by rw [c3, c2]; exact h2, by rw [c7]; exact h3⟩
      · exact ⟨h1, h2, h3⟩
      · exact ⟨h1, h2, h3⟩

/-- The invariant holds along any run. -/
theorem inv_run (s : ClientState) (acts : List Action) (h : Inv s) :
    Inv (runState s acts) := by
  induction acts generalizing s with
  | nil => exact h
  | cons a acts ih => rw [runState_cons]; exact ih _ (inv_step s a h)

/-- Every reachable manager state satisfies the invariant. -/
theorem reachable_inv (s : ClientState) (h : Reachable s) : Inv s := by
  obtain ⟨cfg, acts, rfl⟩ := h
  exact inv_run _ _ (inv_initState cfg)

/-- Calling `disconnect()` always leaves a quiescent state. -/
theorem disconnect_quiescent (s : ClientState) : Quiescent (disconnect s).1 :=
  ⟨rfl, rfl, rfl⟩

/-- One event-loop turn other than a caller-initiated `connect()` keeps a
quiescent state quiescent and produces neither a `reconnecting` emission nor
a new transport socket. -/
theorem quiescent_step (s : ClientState) (a : Action)
    (hq : Quiescent s) (ha : isCallerConnect a = false) :
    Quiescent (step s a).1 ∧ (step s a).2.countP isReconnectingEmit = 0 ∧
      (step s a).2.countP isWsNew = 0 := by
  obtain ⟨q1, q2, q3⟩ := hq
  cases a with
  | connectOk => simp [isCallerConnect] at ha
  | connectFail => simp [isCallerConnect] at ha
  | disconnect =>
      refine ⟨⟨rfl, rfl, rfl⟩, ?_, ?_⟩ <;>
        simp [step, AIST.disconnect, q2, isReconnectingEmit, isWsNew]
  | subscribe topic filter interval =>
      refine ⟨?_, ?_, ?_⟩ <;> simp [Quiescent, step, AIST.subscribe, _send, q2, q1, q3]
  | unsubscribe topic filter =>
      refine ⟨?_, ?_, ?_⟩ <;> simp [Quiescent, step, AIST.unsubscribe, _send, q2, q1, q3]
  | send data =>
      refine ⟨?_, ?_, ?_⟩ <;> simp [Quiescent, step, AIST.send, _send, q2, q1, q3]
  | wsOpen =>
      simp only [step, q2]
      exact ⟨⟨q1, q2, q3⟩, by simp, by simp⟩
  | wsClose code reason =>
      have hnot : ¬(code ≠ 1000 ∧
          ({ s with connected := false, ws := none,
                    heartbeatTimer := false } : ClientState).reconnectAttempts <
            ({ s with connected := false, ws := none,
                      heartbeatTimer := false } : ClientState).config.maxReconnectAttempts) := by
        intro hcontra
        exact absurd hcontra.2 (by simp [q3])
      simp only [step, _handleClose, if_neg hnot]
      exact ⟨⟨q1, rfl, q3⟩, by simp [isReconnectingEmit], by simp [isWsNew]⟩
  | wsMessage p =>
      simp only [step, q2]
      exact ⟨⟨q1, q2, q3⟩, by simp, by simp⟩
  | wsError =>
      exact ⟨⟨q1, q2, q3⟩, by simp [step, isReconnectingEmit], by simp [step, isWsNew]⟩
  | timerFire ctorFails =>
      simp only [step, q1]
      exact ⟨⟨q1, q2, q3⟩, by simp, by simp⟩
  | heartbeatTick =>
      simp only [step, heartbeatBody, q2]
      split_ifs with hhb hopen
      · exact absurd hopen (by simp)
      · exact ⟨⟨q1, q2, q3⟩, rfl, rfl⟩
      · exact ⟨⟨q1, q2, q3⟩, rfl, rfl⟩

/-- Once quiescent, a run containing no caller-initiated `connect()` stays
quiescent, never emits `reconnecting` and never constructs a socket. -/
theorem quiescent_run (s : ClientState) (acts : List Action)
    (hq : Quiescent s) (ha : ∀ a ∈ acts, isCallerConnect a = false) :
    Quiescent (runState s acts) ∧ (runOuts s acts).countP isReconnectingEmit = 0 ∧
      (runOuts s acts).countP isWsNew = 0 := by
  induction acts generalizing s with
  | nil => exact ⟨hq, rfl, rfl⟩
  | cons a acts ih =>
      obtain ⟨hq', hc1, hc2⟩ := quiescent_step s a hq (ha a (List.mem_cons_self a acts))
      obtain ⟨hq'', hc1', hc2'⟩ := ih (step s a).1 hq'
        (fun b hb => ha b (List.mem_cons_of_mem a hb))
      refine ⟨by rwa [runState_cons], ?_, ?_⟩ <;>
        rw [runOuts_cons, List.countP_append]
      · rw [hc1, hc1']
      · rw [hc2, hc2']

/-- Splitting a run at an intermediate point: final states compose. -/
theorem runState_append (s : ClientState) (l1 l2 : List Action) :
    runState s (l1 ++ l2) = runState (runState s l1) l2 := by
  induction l1 generalizing s with
  | nil => rfl
  | cons a l1 ih => rw [List.cons_append, runState_cons, runState_cons, ih]

/-- Splitting a run at an intermediate point: effects concatenate. -/
theorem runOuts_append (s : ClientState) (l1 l2 : List Action) :
    runOuts s (l1 ++ l2) = runOuts s l1 ++ runOuts (runState s l1) l2 := by
  induction l1 generalizing s with
  | nil => simp [runOuts, run_nil, runState]
  | cons a l1 ih =>
      rw [List.cons_append, runOuts_cons, runOuts_cons, runState_cons, ih,
        List.append_assoc]

/-- While the transport is not open, a send-path call only appends its
serialized message to the queue and writes nothing to the transport. -/
theorem call_step_queued (c : Call) (s : ClientState) (h : s.ws ≠ some ReadyState.OPEN) :
    step s c.toAction =
      ({ s with messageQueue := s.messageQueue ++ [jsonStringify c.message] }, []) := by
  cases c <;>
    simp [step, Call.toAction, Call.message, AIST.subscribe, AIST.unsubscribe,
      AIST.send, _send, if_neg h]

/-- While the transport is not open, a sequence of send-path calls appends
the serialized messages to the queue in call order and writes nothing. -/
theorem calls_run_queued (s : ClientState) (calls : List Call)
    (h : s.ws ≠ some ReadyState.OPEN) :
    runState s (calls.map Call.toAction) =
      { s with messageQueue :=
          s.messageQueue ++ calls.map (fun c => jsonStringify c.message) } ∧
    runOuts s (calls.map Call.toAction) = [] := by
  induction calls generalizing s with
  | nil => constructor <;> simp [runState, runOuts, run_nil]
  | cons c calls ih =>
      have hstep := call_step_queued c s h
      have hws : ({ s with messageQueue :=
          s.messageQueue ++ [jsonStringify c.message] } : ClientState).ws ≠
          some ReadyState.OPEN := h
      obtain ⟨ih1, ih2⟩ := ih _ hws
      constructor
      · rw [List.map_cons, runState_cons, hstep, ih1]
        simp
      · rw [List.map_cons, runOuts_cons, hstep, ih2]
        simp

/-- Delivery of the transport open event on a connecting socket: the queue is
drained to the transport in FIFO order before the `connected` emission, the
attempt counter resets and the heartbeat starts. -/
theorem open_drains (s : ClientState) (h : s.ws = some ReadyState.CONNECTING) :
    step s Action.wsOpen =
      ({ s with ws := some ReadyState.OPEN, connected := true, reconnectAttempts := 0,
                messageQueue := [], heartbeatTimer := true },
       s.messageQueue.map Out.wsSend ++ [Out.emit (.str "connected") .null]) := by
  simp [step, h, _handleOpen]

/-- Effect of one unintentional-closure cycle while the attempt counter is
below the ceiling: the counter increments, exactly one `reconnecting`
emission carries the new attempt number, and the manager is connecting again
with no timer pending. -/
theorem cycle_step (s : ClientState) (h2 : s.reconnectTimer = false)
    (h3 : s.reconnectAttempts < s.config.maxReconnectAttempts) :
    runState s closeFireCycle =
      { s with ws := some ReadyState.CONNECTING, connected := false,
               heartbeatTimer := false, reconnectTimer := false,
               reconnectAttempts := s.reconnectAttempts + 1 } ∧
    (runOuts s closeFireCycle).filterMap reconnectingAttempt =
      [((s.reconnectAttempts + 1 : Nat) : ℚ)] := by
  constructor
  · rw [closeFireCycle, runState_cons, runState_cons]
    simp [step, _handleClose, _scheduleReconnect, h2, h3, Nat.not_le.mpr h3,
      connect, runState, run_nil]
  · rw [closeFireCycle, runOuts_cons, runOuts_cons]
    simp [step, _handleClose, _scheduleReconnect, h2, h3, Nat.not_le.mpr h3,
      connect, runOuts, run_nil, reconnectingAttempt, getField, List.lookup,
      Nat.cast_add, Nat.cast_one]

/-- Consecutive unintentional-closure cycles, while the counter stays within
the ceiling, emit `reconnecting` events carrying consecutive attempt numbers
starting right above the current counter. -/
theorem cycles_run (j : Nat) (s : ClientState) (h2 : s.reconnectTimer = false)
    (h3 : s.reconnectAttempts + j ≤ s.config.maxReconnectAttempts) :
    (runState s (cyclesList j)).reconnectTimer = false ∧
    (runState s (cyclesList j)).reconnectAttempts = s.reconnectAttempts + j ∧
    (runOuts s (cyclesList j)).filterMap reconnectingAttempt =
      (List.range j).map (fun i => ((s.reconnectAttempts + i + 1 : Nat) : ℚ)) := by
  induction j generalizing s with
  | zero =>
      refine ⟨?_, ?_, ?_⟩ <;> simp [cyclesList, runState, runOuts, run_nil, h2]
  | succ j ih =>
      have hlt : s.reconnectAttempts < s.config.maxReconnectAttempts := by omega
      obtain ⟨c1, c2⟩ := cycle_step s h2 hlt
      have hrt : (runState s closeFireCycle).reconnectTimer = false := by rw [c1]
      have hcfg : (runState s closeFireCycle).config = s.config := by rw [c1]
      have hra : (runState s closeFireCycle).reconnectAttempts =
          s.reconnectAttempts + 1 := by rw [c1]
      have h3' : (runState s closeFireCycle).reconnectAttempts + j ≤
          (runState s closeFireCycle).config.maxReconnectAttempts := by
        rw [hra, hcfg]; omega
      obtain ⟨i1, i2, i3⟩ := ih (runState s closeFireCycle) hrt h3'
      have hjoin : cyclesList (j + 1) = closeFireCycle ++ cyclesList j := rfl
      refine ⟨?_, ?_, ?_⟩
      · rw [hjoin, runState_append, i1]
      · rw [hjoin, runState_append, i2, hra]
        omega
      · rw [hjoin, runOuts_append, List.filterMap_append, c2, i3, hra,
          List.range_succ_eq_map, List.map_cons, List.map_map]
        refine congrArg₂ List.cons (by norm_num) ?_
        refine List.map_congr_left (fun i _ => ?_)
        simp only [Function.comp_apply]
        congr 1
        omega

/-! Claim theorems. -/

/-- C1: the claim states that after exactly `maxReconnectAttempts` consecutive
unintentional closures (with `maxReconnectAttempts` 2: two `reconnecting`
events with attempts 1 and 2) one `reconnect_failed` event fires and no
further reconnect timer is scheduled.  The code diverges: after the second
closure the `reconnecting` events 1 and 2 have been emitted but a second
reconnect timer is still pending and no `reconnect_failed` has fired; when
that timer fires and the resulting connection closes unintentionally as well,
`_handleClose` skips `_scheduleReconnect` entirely (its guard
`reconnectAttempts < maxReconnectAttempts` fails), so the `reconnect_failed`
emission inside `_scheduleReconnect` — evidently intended for exactly this
exhaustion — is never reached from the close path and the episode ends
silently. -/
theorem C1_reconnect_failed_never_fires_on_close_path :
    (runOuts (initState cfgA) twoClosesTrace).filterMap reconnectingAttempt =
      [(1 : ℚ), (2 : ℚ)] ∧
    (runOuts (initState cfgA) twoClosesTrace).countP isReconnectFailedEmit = 0 ∧
    (runState (initState cfgA) twoClosesTrace).reconnectTimer = true ∧
    (runOuts (initState cfgA) exhaustedTrace).countP isReconnectFailedEmit = 0 ∧
    (runOuts (initState cfgA) exhaustedTrace).countP isReconnectingEmit = 2 ∧
    (runState (initState cfgA) exhaustedTrace).reconnectTimer = false := by
  decide

/-- C2: messages issued through `send`/`subscribe`/`unsubscribe` while the
transport is not open are serialized and appended to the outbound queue in
call order, nothing is written to the transport, and on the transition to
open the queue is drained to the transport in FIFO order before the
`connected` emission; in the specification scenario,
`subscribe("sensor_data", "site_a", 5000)` issued while disconnected makes
the literal frame
`\x7b"type":"subscribe","topic":"sensor_data","filter":"site_a","interval":5000\x7d`
the first (and only) transport write of the subsequent open. -/
theorem C2_fifo_replay (s s2 : ClientState) (calls : List Call)
    (h : s.ws ≠ some ReadyState.OPEN) (h2 : s2.ws = some ReadyState.CONNECTING) :
    (runState s (calls.map Call.toAction)).messageQueue =
      s.messageQueue ++ calls.map (fun c => jsonStringify c.message) ∧
    runOuts s (calls.map Call.toAction) = [] ∧
    (step s2 Action.wsOpen).2 =
      s2.messageQueue.map Out.wsSend ++ [Out.emit (Json.str "connected") Json.null] ∧
    (step s2 Action.wsOpen).1.messageQueue = [] ∧
    (runOuts (initState cfgB)
        [Action.subscribe "sensor_data" (some "site_a") 5000, Action.connectOk,
         Action.wsOpen]).filterMap wsSendFrame =
      ["\x7b\"type\":\"subscribe\",\"topic\":\"sensor_data\",\"filter\":\"site_a\",\"interval\":5000\x7d"] := by
  obtain ⟨r1, r2⟩ := calls_run_queued s calls h
  refine ⟨by rw [r1], r2, ?_, ?_, ?_⟩
  · rw [open_drains s2 h2]
  · rw [open_drains s2 h2]
  · decide

/-- Witness for C2 at a concrete instance: one queued subscribe call from the
initial state, then the connection opens. -/
theorem C2_fifo_replay_witness :
    ((initState cfgB).ws ≠ some ReadyState.OPEN ∧
      (runState (initState cfgB)
        [Action.subscribe "sensor_data" (some "site_a") 5000,
         Action.connectOk]).ws = some ReadyState.CONNECTING) ∧
    ((runState (initState cfgB)
        ([Call.subscribe "sensor_data" (some "site_a") 5000].map Call.toAction)).messageQueue =
      (initState cfgB).messageQueue ++
        [Call.subscribe "sensor_data" (some "site_a") 5000].map
          (fun c => jsonStringify c.message) ∧
    runOuts (initState cfgB)
        ([Call.subscribe "sensor_data" (some "site_a") 5000].map Call.toAction) = [] ∧
    (step (runState (initState cfgB)
        [Action.subscribe "sensor_data" (some "site_a") 5000,
         Action.connectOk]) Action.wsOpen).2 =
      (runState (initState cfgB)
        [Action.subscribe "sensor_data" (some "site_a") 5000,
         Action.connectOk]).messageQueue.map Out.wsSend ++
        [Out.emit (Json.str "connected") Json.null] ∧
    (step (runState (initState cfgB)
        [Action.subscribe "sensor_data" (some "site_a") 5000,
         Action.connectOk]) Action.wsOpen).1.messageQueue = [] ∧
    (runOuts (initState cfgB)
        [Action.subscribe "sensor_data" (some "site_a") 5000, Action.connectOk,
         Action.wsOpen]).filterMap wsSendFrame =
      ["\x7b\"type\":\"subscribe\",\"topic\":\"sensor_data\",\"filter\":\"site_a\",\"interval\":5000\x7d"]) :=
  ⟨⟨by decide, by decide⟩,
    C2_fifo_replay (initState cfgB) _ [Call.subscribe "sensor_data" (some "site_a") 5000]
      (by decide) (by decide)⟩

/-- C3: `disconnect()` sets the attempt counter to `maxReconnectAttempts`,
cancels the pending reconnect timer and the heartbeat timer, closes the
transport with the normal-closure code 1000 (when a transport is attached),
emits `disconnected`, and is never followed by an automatically scheduled
reconnect: along any subsequent run without a caller-initiated `connect()`,
no `reconnecting` event is emitted, no transport socket is constructed (so
the connecting state is never entered) and the reconnect timer stays clear. -/
theorem C3_disconnect_is_terminal (s : ClientState) (acts : List Action)
    (hacts : ∀ a ∈ acts, isCallerConnect a = false) :
    (disconnect s).1.reconnectAttempts = s.config.maxReconnectAttempts ∧
    (disconnect s).1.reconnectTimer = false ∧
    (disconnect s).1.heartbeatTimer = false ∧
    (disconnect s).1.connected = false ∧
    (disconnect s).2 =
      (if s.ws.isSome then [Out.wsCloseCall 1000 "Client disconnect"] else []) ++
        [Out.emit (Json.str "disconnected") Json.null] ∧
    (runOuts (disconnect s).1 acts).countP isReconnectingEmit = 0 ∧
    (runOuts (disconnect s).1 acts).countP isWsNew = 0 ∧
    (runState (disconnect s).1 acts).reconnectTimer = false := by
  obtain ⟨g1, g2, g3⟩ :=
    quiescent_run (disconnect s).1 acts (disconnect_quiescent s) hacts
  exact ⟨rfl, rfl, rfl, rfl, rfl, g2, g3, g1.1⟩

/-- Witness for C3: disconnect from an open connection, then a late close of
the discarded socket, a stray timer tick and a heartbeat tick. -/
theorem C3_disconnect_is_terminal_witness :
    (∀ a ∈ [Action.wsClose 1000 "Client disconnect", Action.wsClose 1006 "late",
        Action.timerFire false, Action.heartbeatTick], isCallerConnect a = false) ∧
    ((disconnect (runState (initState cfgB) [Action.connectOk, Action.wsOpen])).1.reconnectAttempts =
      (runState (initState cfgB) [Action.connectOk, Action.wsOpen]).config.maxReconnectAttempts ∧
    (disconnect (runState (initState cfgB) [Action.connectOk, Action.wsOpen])).1.reconnectTimer = false ∧
    (disconnect (runState (initState cfgB) [Action.connectOk, Action.wsOpen])).1.heartbeatTimer = false ∧
    (disconnect (runState (initState cfgB) [Action.connectOk, Action.wsOpen])).1.connected = false ∧
    (disconnect (runState (initState cfgB) [Action.connectOk, Action.wsOpen])).2 =
      (if (runState (initState cfgB) [Action.connectOk, Action.wsOpen]).ws.isSome then
        [Out.wsCloseCall 1000 "Client disconnect"] else []) ++
        [Out.emit (Json.str "disconnected") Json.null] ∧
    (runOuts (disconnect (runState (initState cfgB) [Action.connectOk, Action.wsOpen])).1
        [Action.wsClose 1000 "Client disconnect", Action.wsClose 1006 "late",
         Action.timerFire false, Action.heartbeatTick]).countP isReconnectingEmit = 0 ∧
    (runOuts (disconnect (runState (initState cfgB) [Action.connectOk, Action.wsOpen])).1
        [Action.wsClose 1000 "Client disconnect", Action.wsClose 1006 "late",
         Action.timerFire false, Action.heartbeatTick]).countP isWsNew = 0 ∧
    (runState (disconnect (runState (initState cfgB) [Action.connectOk, Action.wsOpen])).1
        [Action.wsClose 1000 "Client disconnect", Action.wsClose 1006 "late",
         Action.timerFire false, Action.heartbeatTick]).reconnectTimer = false) :=
  ⟨by decide, C3_disconnect_is_terminal _ _ (by decide)⟩

/-- C4 counterexample: the claim states the type-named event carries the
frame's `data` field whenever that field is present (the whole payload only
when `data` is absent).  On the frame
`\x7b"type":"t","data":false\x7d` the `data` field is present, so the claim
demands payload `false`; the code evaluates `message.data || message` and,
`false` being falsy, delivers the whole frame instead. -/
theorem C4_counterexample_falsy_data :
    (_handleMessage (some falsyDataFrame) (initState cfgB)).2 =
      [Out.emit (Json.str "t") falsyDataFrame,
       Out.emit (Json.str "message") falsyDataFrame] ∧
    ¬ (_handleMessage (some falsyDataFrame) (initState cfgB)).2 =
      [Out.emit (Json.str "t") (Json.bool false),
       Out.emit (Json.str "message") falsyDataFrame] := by
  constructor
  · rfl
  · intro hcontra
    simp [_handleMessage, falsyDataFrame, getField, dataOrWhole, truthy,
      List.lookup] at hcontra

/-- C4 amended: for every inbound frame that parses as a payload whose `type`
field is present and truthy, exactly two events are dispatched — the event
named by `type`, carrying the `data` field when it is present and truthy and
the whole payload otherwise, then the generic `message` event with the full
payload — and the state is unchanged; a non-parseable frame dispatches
nothing and raises nothing; on the specification's example frame
`\x7b"type":"sensor_data_update","data":\x7b"temp":28.5\x7d\x7d` the two
events carry the `data` object and the full frame respectively. -/
theorem C4_amended_two_event_dispatch (message t : Json) (s s2 s3 : ClientState)
    (ht : getField message "type" = some t) (htruthy : truthy t = true) :
    (_handleMessage (some message) s).2 =
      [Out.emit t (dataOrWhole message), Out.emit (Json.str "message") message] ∧
    (_handleMessage (some message) s).1 = s ∧
    _handleMessage none s2 = (s2, []) ∧
    (_handleMessage (some sensorFrame) s3).2 =
      [Out.emit (Json.str "sensor_data_update")
         (Json.obj [("temp", Json.num ((57 : ℚ) / 2))]),
       Out.emit (Json.str "message") sensorFrame] := by
  refine ⟨?_, handleMessage_fst _ _, rfl, rfl⟩
  simp [_handleMessage, ht, htruthy]

/-- Witness for the amended C4 at the specification's example frame. -/
theorem C4_amended_two_event_dispatch_witness :
    (getField sensorFrame "type" = some (Json.str "sensor_data_update") ∧
      truthy (Json.str "sensor_data_update") = true) ∧
    ((_handleMessage (some sensorFrame) (initState cfgB)).2 =
      [Out.emit (Json.str "sensor_data_update") (dataOrWhole sensorFrame),
       Out.emit (Json.str "message") sensorFrame] ∧
    (_handleMessage (some sensorFrame) (initState cfgB)).1 = initState cfgB ∧
    _handleMessage none (initState cfgB) = (initState cfgB, []) ∧
    (_handleMessage (some sensorFrame) (initState cfgB)).2 =
      [Out.emit (Json.str "sensor_data_update")
         (Json.obj [("temp", Json.num ((57 : ℚ) / 2))]),
       Out.emit (Json.str "message") sensorFrame]) :=
  ⟨⟨rfl, rfl⟩, C4_amended_two_event_dispatch sensorFrame _ _ _ _ rfl rfl⟩

/-- C5: a successful open resets the reconnect attempt counter to 0 —
whatever number of attempts was consumed before — so that a later episode of
consecutive unintentional closures can again schedule the full
`maxReconnectAttempts` reconnection attempts: the subsequent `reconnecting`
emissions carry attempt numbers 1, 2, …, j for any j up to the ceiling. -/
theorem C5_open_resets_attempt_counter (s : ClientState) (j : Nat)
    (hws : s.ws = some ReadyState.CONNECTING) (hrt : s.reconnectTimer = false)
    (hj : j ≤ s.config.maxReconnectAttempts) :
    (step s Action.wsOpen).1.reconnectAttempts = 0 ∧
    (runOuts (step s Action.wsOpen).1 (cyclesList j)).filterMap reconnectingAttempt =
      (List.range j).map (fun i => ((i + 1 : Nat) : ℚ)) ∧
    (runState (step s Action.wsOpen).1 (cyclesList j)).reconnectAttempts = j := by
  have ho := open_drains s hws
  have h0 : (step s Action.wsOpen).1.reconnectAttempts = 0 := by rw [ho]
  have hrt2 : (step s Action.wsOpen).1.reconnectTimer = false := by
    rw [ho]; exact hrt
  have hcfg : (step s Action.wsOpen).1.config = s.config := by rw [ho]
  have hj2 : (step s Action.wsOpen).1.reconnectAttempts + j ≤
      (step s Action.wsOpen).1.config.maxReconnectAttempts := by
    rw [h0, hcfg]; omega
  obtain ⟨y1, y2, y3⟩ := cycles_run j _ hrt2 hj2
  refine ⟨h0, ?_, ?_⟩
  · rw [y3]
    simp only [h0, Nat.zero_add]
  · rw [y2, h0, Nat.zero_add]

/-- Witness for C5: one attempt was consumed (counter at 1), the connection
opens, and a fresh episode of two closure cycles retries the full ceiling of
`cfgA` with attempt numbers 1 and 2. -/
theorem C5_open_resets_attempt_counter_witness :
    ((runState (initState cfgA)
        [Action.connectOk, Action.wsClose 1006 "abnormal closure",
         Action.timerFire false]).ws = some ReadyState.CONNECTING ∧
      (runState (initState cfgA)
        [Action.connectOk, Action.wsClose 1006 "abnormal closure",
         Action.timerFire false]).reconnectTimer = false ∧
      (runState (initState cfgA)
        [Action.connectOk, Action.wsClose 1006 "abnormal closure",
         Action.timerFire false]).reconnectAttempts = 1 ∧
      2 ≤ (runState (initState cfgA)
        [Action.connectOk, Action.wsClose 1006 "abnormal closure",
         Action.timerFire false]).config.maxReconnectAttempts) ∧
    ((step (runState (initState cfgA)
        [Action.connectOk, Action.wsClose 1006 "abnormal closure",
         Action.timerFire false]) Action.wsOpen).1.reconnectAttempts = 0 ∧
    (runOuts (step (runState (initState cfgA)
        [Action.connectOk, Action.wsClose 1006 "abnormal closure",
         Action.timerFire false]) Action.wsOpen).1 (cyclesList 2)).filterMap
        reconnectingAttempt =
      (List.range 2).map (fun i => ((i + 1 : Nat) : ℚ)) ∧
    (runState (step (runState (initState cfgA)
        [Action.connectOk, Action.wsClose 1006 "abnormal closure",
         Action.timerFire false]) Action.wsOpen).1 (cyclesList 2)).reconnectAttempts = 2) :=
  ⟨⟨by decide, by decide, by decide, by decide⟩,
    C5_open_resets_attempt_counter _ 2 (by decide) (by decide) (by decide)⟩

/-- C6: in every reachable state the heartbeat timer exists exactly when the
connection is open; consequently a heartbeat tick writes exactly one ping
frame to the transport while connected, and writes nothing — produces no
effect at all — once the connection is closed. -/
theorem C6_heartbeat_iff_open (s : ClientState) (h : Reachable s) :
    (s.heartbeatTimer = true ↔ s.ws = some ReadyState.OPEN) ∧
    (s.connected = false → (step s Action.heartbeatTick).2 = []) ∧
    (s.connected = true → (step s Action.heartbeatTick).2 =
      [Out.wsSend (jsonStringify pingMessage)]) := by
  obtain ⟨h1, h2, h3⟩ := reachable_inv s h
  refine ⟨by rw [h1]; exact h2, ?_, ?_⟩
  · intro hc
    have hhb : s.heartbeatTimer = false := by rw [h1, hc]
    simp [step, hhb]
  · intro hc
    have hhb : s.heartbeatTimer = true := by rw [h1, hc]
    have hws := h2.mp hc
    simp [step, hhb, heartbeatBody, hws, _send]

/-- Witness for C6 at a reachable open state and at a reachable closed one
(the conclusion is applied at the open state; closedness is exercised through
the `connected = false` branch of the same conclusion after disconnect). -/
theorem C6_heartbeat_iff_open_witness :
    Reachable (runState (initState cfgB) [Action.connectOk, Action.wsOpen]) ∧
    (((runState (initState cfgB) [Action.connectOk, Action.wsOpen]).heartbeatTimer = true ↔
      (runState (initState cfgB) [Action.connectOk, Action.wsOpen]).ws =
        some ReadyState.OPEN) ∧
    ((runState (initState cfgB) [Action.connectOk, Action.wsOpen]).connected = false →
      (step (runState (initState cfgB) [Action.connectOk, Action.wsOpen])
        Action.heartbeatTick).2 = []) ∧
    ((runState (initState cfgB) [Action.connectOk, Action.wsOpen]).connected = true →
      (step (runState (initState cfgB) [Action.connectOk, Action.wsOpen])
        Action.heartbeatTick).2 = [Out.wsSend (jsonStringify pingMessage)])) :=
  ⟨⟨cfgB, [Action.connectOk, Action.wsOpen], rfl⟩,
    C6_heartbeat_iff_open _ ⟨cfgB, [Action.connectOk, Action.wsOpen], rfl⟩⟩

/-- C7 counterexample: the claim states the first
`subscribe(topic, filter, interval)` call creates a Subscription record for
that key in the manager's subscription registry.  After
`subscribe("sensor_data", "site_a", 5000)` on a fresh manager the
`subscriptions` map is still empty — no record for any key exists, because
`subscribe` only sends (or queues) the protocol frame and never touches the
registry. -/
theorem C7_counterexample_subscribe_creates_no_record :
    (runState (initState cfgB)
      [Action.subscribe "sensor_data" (some "site_a") 5000]).subscriptions = [] ∧
    (runState (initState cfgB)
      [Action.subscribe "sensor_data" (some "site_a") 5000]).subscriptions.lookup
        "sensor_data" = none :=
  ⟨rfl, rfl⟩

/-- C7 amended: the client-side subscription registry is never populated — in
every reachable state `this.subscriptions` is empty, and neither `subscribe`
nor `unsubscribe` modifies it (subscription intent lives only in the frames
sent to the server; only `cleanup()` ever touches the map, clearing it). -/
theorem C7_amended_registry_stays_empty (s : ClientState) (t : String)
    (f : Option String) (i : ℚ) (h : Reachable s) :
    s.subscriptions = [] ∧
    (step s (Action.subscribe t f i)).1.subscriptions = [] ∧
    (step s (Action.unsubscribe t f)).1.subscriptions = [] ∧
    (cleanup s).1.subscriptions = [] := by
  have h3 := (reachable_inv s h).2.2
  refine ⟨h3, ?_, ?_, rfl⟩
  · simp only [step, AIST.subscribe]
    rw [(send_frame (subscribeMessage t f i) s).2.2.2.2.2.2]
    exact h3
  · simp only [step, AIST.unsubscribe]
    rw [(send_frame (unsubscribeMessage t f) s).2.2.2.2.2.2]
    exact h3

/-- Witness for the amended C7 at a state that has already issued one
subscribe call. -/
theorem C7_amended_registry_stays_empty_witness :
    Reachable (runState (initState cfgB)
      [Action.subscribe "sensor_data" (some "site_a") 5000]) ∧
    ((runState (initState cfgB)
        [Action.subscribe "sensor_data" (some "site_a") 5000]).subscriptions = [] ∧
    (step (runState (initState cfgB)
        [Action.subscribe "sensor_data" (some "site_a") 5000])
      (Action.subscribe "tasks" none 60000)).1.subscriptions = [] ∧
    (step (runState (initState cfgB)
        [Action.subscribe "sensor_data" (some "site_a") 5000])
      (Action.unsubscribe "tasks" none)).1.subscriptions = [] ∧
    (cleanup (runState (initState cfgB)
        [Action.subscribe "sensor_data" (some "site_a") 5000])).1.subscriptions = []) :=
  ⟨⟨cfgB, [Action.subscribe "sensor_data" (some "site_a") 5000], rfl⟩,
    C7_amended_registry_stays_empty _ "tasks" none 60000
      ⟨cfgB, [Action.subscribe "sensor_data" (some "site_a") 5000], rfl⟩⟩

/-- Auxiliary accumulator form of the `_emit` dispatch loop: starting from
any count, the fold invokes every callback and never propagates an error. -/
theorem emit_foldl_ok (cbs : List CbBehavior) (n : Nat) :
    List.foldl
      (fun acc cb =>
        match acc with
        | .error e => .error e
        | .ok k =>
          match invokeCallback cb with
          | .ok _ => .ok (k + 1)
          | .error _ => .ok (k + 1))
      (Except.ok n : Except String Nat) cbs = Except.ok (n + cbs.length) := by
  induction cbs generalizing n with
  | nil => simp
  | cons cb cbs ih =>
      have harith : n + 1 + cbs.length = n + (cbs.length + 1) := by omega
      cases cb
      · rw [List.foldl_cons]
        show List.foldl _ (Except.ok (n + 1) : Except String Nat) cbs = _
        rw [ih, List.length_cons, harith]
      · rw [List.foldl_cons]
        show List.foldl _ (Except.ok (n + 1) : Except String Nat) cbs = _
        rw [ih, List.length_cons, harith]

/-- C8: event dispatch catches each listener exception individually, so every
registered listener is invoked (the returned count equals the number of
registered callbacks) and no exception escapes the dispatch loop; and no
exception from a listener or from a transport failure escapes the public
operations — `connect()` always returns normally whatever the socket
constructor and the listeners do, and `send()`/`subscribe()` always return
normally (the transport write, the only throwing primitive on their path, is
guarded by the open check). -/
theorem C8_no_exception_escapes :
    (∀ cbs : List CbBehavior, _emit cbs = Except.ok cbs.length) ∧
    (∀ (f : Bool) (errCbs schedCbs : List CbBehavior) (s : ClientState),
      (connectExc f errCbs schedCbs s).isOk = true) ∧
    (∀ (d : Json) (s : ClientState), (_sendExc (dataMessage d) s).isOk = true) ∧
    (∀ (t : String) (fl : Option String) (i : ℚ) (s : ClientState),
      (_sendExc (subscribeMessage t fl i) s).isOk = true) := by
  have hemit : ∀ cbs : List CbBehavior, _emit cbs = Except.ok cbs.length := by
    intro cbs
    simpa [_emit] using emit_foldl_ok cbs 0
  have hsend : ∀ (m : Json) (s : ClientState), (_sendExc m s).isOk = true := by
    intro m s
    unfold _sendExc
    split_ifs with hws
    · simp [wsSendPrim, hws, Except.isOk, Except.toBool]
    · rfl
  refine ⟨hemit, ?_, fun d s => hsend _ s, fun t fl i s => hsend _ s⟩
  intro f errCbs schedCbs s
  unfold connectExc
  split_ifs with hws
  · rfl
  · cases f with
    | false => rfl
    | true => simp [wsConstruct, hemit, Except.isOk, Except.toBool]

/-- C9: `getStatus()` returns a snapshot with exactly three fields — the
connected flag, the attempt counter, and the configured endpoint address
(property `url` in the source, called `address` in the specification) — and
in every reachable state `isConnected()` returns true exactly when the
current transport is in the open state. -/
theorem C9_status_snapshot (s : ClientState) (h : Reachable s) :
    getStatus s = ⟨s.connected, s.reconnectAttempts, s.config.url⟩ ∧
    (isConnected s = true ↔ s.ws = some ReadyState.OPEN) :=
  ⟨rfl, (reachable_inv s h).2.1⟩

/-- Witness for C9 at a reachable open state. -/
theorem C9_status_snapshot_witness :
    Reachable (runState (initState cfgB) [Action.connectOk, Action.wsOpen]) ∧
    (getStatus (runState (initState cfgB) [Action.connectOk, Action.wsOpen]) =
      ⟨(runState (initState cfgB) [Action.connectOk, Action.wsOpen]).connected,
       (runState (initState cfgB) [Action.connectOk, Action.wsOpen]).reconnectAttempts,
       (runState (initState cfgB) [Action.connectOk, Action.wsOpen]).config.url⟩ ∧
    (isConnected (runState (initState cfgB) [Action.connectOk, Action.wsOpen]) = true ↔
      (runState (initState cfgB) [Action.connectOk, Action.wsOpen]).ws =
        some ReadyState.OPEN)) :=
  ⟨⟨cfgB, [Action.connectOk, Action.wsOpen], rfl⟩,
    C9_status_snapshot _ ⟨cfgB, [Action.connectOk, Action.wsOpen], rfl⟩⟩

/-- C10: `disconnect()` on a manager whose transport is absent (never
connected, or already disconnected) still sets the attempt counter to the
ceiling, clears the connected flag and emits `disconnected` — with no
transport close call, so the event does not imply a live connection was
closed; a repeated `disconnect()` emits `disconnected` again; and
auto-reconnect stays suppressed along any subsequent run without a
caller-initiated `connect()`. -/
theorem C10_disconnect_without_connection (s : ClientState) (acts : List Action)
    (h : s.ws = none) (hacts : ∀ a ∈ acts, isCallerConnect a = false) :
    (disconnect s).1.reconnectAttempts = s.config.maxReconnectAttempts ∧
    (disconnect s).1.connected = false ∧
    (disconnect s).2 = [Out.emit (Json.str "disconnected") Json.null] ∧
    (disconnect (disconnect s).1).2 = [Out.emit (Json.str "disconnected") Json.null] ∧
    (runOuts (disconnect s).1 acts).countP isReconnectingEmit = 0 ∧
    (runOuts (disconnect s).1 acts).countP isWsNew = 0 := by
  obtain ⟨g1, g2, g3⟩ :=
    quiescent_run (disconnect s).1 acts (disconnect_quiescent s) hacts
  refine ⟨rfl, rfl, ?_, ?_, g2, g3⟩
  · simp [disconnect, h]
  · simp [disconnect]

/-- Witness for C10: disconnect on a fresh, never-connected manager, followed
by a further disconnect, a stray late close and a heartbeat tick. -/
theorem C10_disconnect_without_connection_witness :
    ((initState cfgB).ws = none ∧
      ∀ a ∈ [Action.disconnect, Action.wsClose 1006 "late", Action.heartbeatTick],
        isCallerConnect a = false) ∧
    ((disconnect (initState cfgB)).1.reconnectAttempts =
      (initState cfgB).config.maxReconnectAttempts ∧
    (disconnect (initState cfgB)).1.connected = false ∧
    (disconnect (initState cfgB)).2 = [Out.emit (Json.str "disconnected") Json.null] ∧
    (disconnect (disconnect (initState cfgB)).1).2 =
      [Out.emit (Json.str "disconnected") Json.null] ∧
    (runOuts (disconnect (initState cfgB)).1
        [Action.disconnect, Action.wsClose 1006 "late",
         Action.heartbeatTick]).countP isReconnectingEmit = 0 ∧
    (runOuts (disconnect (initState cfgB)).1
        [Action.disconnect, Action.wsClose 1006 "late",
         Action.heartbeatTick]).countP isWsNew = 0) :=
  ⟨⟨rfl, by decide⟩,
    C10_disconnect_without_connection (initState cfgB)
      [Action.disconnect, Action.wsClose 1006 "late", Action.heartbeatTick]
      rfl (by decide)⟩

end AIST
